import Mathlib

/-!
Verification development for `scripts/check-missing.py`, a script that
synthesizes an Arch Linux rosdep mapping (`arch-with-aur.yaml`) from the
upstream rosdep declarations, validating candidate package names against
the official pacman repositories, the AUR, PyPI, file manifests and the
repology cross-distro search service.

The Python source is shallowly embedded below:
* YAML values become the inductive `Yaml`; Python subscripting (which can
  raise `KeyError` on a missing dict key and `TypeError` on a non-dict,
  non-integer-indexed value) becomes `pyIndex` returning `Except PyErr`.
* Each `try`/`except` block of `rosdep_lookup` becomes one `tryChain` step:
  the caught exception classes are exactly the ones the source names.
* The cache functions `get_cached`/`store_cache` are embedded over an
  explicit cache-directory state (`CacheState`).
* `check_repology` takes the network as an oracle mapping a
  (repology-platform, package-name) query to either a parsed record list
  or a failure (`urlError` for `urllib.error.URLError`, `parseError` for a
  `json.JSONDecodeError` raised by `json.loads`).
* The per-key body of `main`'s resolution loop becomes `processKey`; the
  loop over the keys of one upstream file becomes `runFile`, and the loop
  over the two upstream files `["base.yaml", "python.yaml"]` becomes
  `runAll`.
-/

/-- Python exception classes relevant to the script. -/
inductive PyErr where
  | keyError
  | typeError
  | osError
  | urlError
  | parseError
deriving DecidableEq, Repr

/-- Equality of embedded Python results is decidable, so concrete runs
can be checked by evaluation. -/
instance {ε α : Type _} [DecidableEq ε] [DecidableEq α] :
    DecidableEq (Except ε α) := fun x y =>
  match x, y with
  | .ok a, .ok b =>
    if h : a = b then .isTrue (by rw [h]) else .isFalse (by simp [h])
  | .error a, .error b =>
    if h : a = b then .isTrue (by rw [h]) else .isFalse (by simp [h])
  | .ok _, .error _ => .isFalse (by simp)
  | .error _, .ok _ => .isFalse (by simp)

/-- A parsed YAML value as the script manipulates it.  Terminal package
lists in rosdep files are lists of strings, so `list` carries strings;
`map` is a Python `dict` in insertion order; `null` is Python `None`;
`str` is any scalar string. -/
inductive Yaml where
  | null
  | str (s : String)
  | list (xs : List String)
  | map (entries : List (String × Yaml))

/-- Python subscripting `v[k]` with a string key: a `dict` either yields the
value or raises `KeyError`; `None`, strings and lists raise `TypeError`
when subscripted with a string. -/
def pyIndex (v : Yaml) (k : String) : Except PyErr Yaml :=
  match v with
  | .map entries =>
    match entries.lookup k with
    | some w => .ok w
    | none => .error .keyError
  | _ => .error .typeError

/-- A chain of subscripts `v[k₁][k₂]…`, propagating the first exception. -/
def chainIndex (v : Yaml) : List String → Except PyErr Yaml
  | [] => .ok v
  | k :: ks =>
    match pyIndex v k with
    | .ok w => chainIndex w ks
    | .error e => .error e

/-- One `try`/`except` block of `rosdep_lookup`:
`try: pkgs = yaml_data[k₁][k₂]…; if type(pkgs) is list: return pkgs`
followed by `except KeyError: pass` and, in the package-manager branch
only (`catchTypeErr = true`), also `except TypeError: pass`.
A value of list type — even an empty list — is returned immediately;
a caught exception or a non-list value falls through to `rest`. -/
def tryChain (d : Yaml) (ks : List String) (catchTypeErr : Bool)
    (rest : Except PyErr (List String)) : Except PyErr (List String) :=
  match chainIndex d ks with
  | .ok (.list xs) => .ok xs
  | .ok _ => rest
  | .error .keyError => rest
  | .error .typeError => if catchTypeErr then rest else .error .typeError
  | .error e => .error e

/-- `rosdep_lookup(yaml_data, key, os, os_version, pkg_manager)`.
With no package manager it tries `yaml_data[key][os]` (catching only
`KeyError`), then `yaml_data[key][os][os_version]` when a version was
given, then `yaml_data[key][os]['*']`, returning the first value of list
type, else `[]`.  With a package manager it tries
`yaml_data[key][os][pm]['packages']`, then the `os_version`- and
`'*'`-qualified forms, catching both `KeyError` and `TypeError`. -/
def rosdep_lookup (yaml_data : Yaml) (key os : String)
    (os_version pkg_manager : Option String) : Except PyErr (List String) :=
  match pkg_manager with
  | none =>
    tryChain yaml_data [key, os] false
      (match os_version with
       | some v =>
         tryChain yaml_data [key, os, v] false
           (tryChain yaml_data [key, os, "*"] false (.ok []))
       | none => tryChain yaml_data [key, os, "*"] false (.ok []))
  | some pm =>
    tryChain yaml_data [key, os, pm, "packages"] true
      (match os_version with
       | some v =>
         tryChain yaml_data [key, os, v, pm, "packages"] true
           (tryChain yaml_data [key, os, "*", pm, "packages"] true (.ok []))
       | none =>
         tryChain yaml_data [key, os, "*", pm, "packages"] true (.ok []))

/-- The subscript chains `rosdep_lookup` tries, in the order the source
tries them: with a package manager requested, the version-agnostic
manager-qualified chain, then the exact-version chain, then the
wildcard chain; without one, the version-agnostic chain, then the
exact-version chain, then the wildcard chain. -/
def levels (key os : String) (os_version : Option String) :
    Option String → List (List String)
  | some pm =>
    [key, os, pm, "packages"] ::
      ((match os_version with
        | some v => [[key, os, v, pm, "packages"]]
        | none => []) ++ [[key, os, "*", pm, "packages"]])
  | none =>
    [key, os] ::
      ((match os_version with
        | some v => [[key, os, v]]
        | none => []) ++ [[key, os, "*"]])

/-- Walk a list of subscript chains and return the first value of list
type (empty lists included); skip chains that raise `KeyError`, and —
when `catchTypeErr` is set — also chains that raise `TypeError`;
return `[]` when every chain has been skipped. -/
def firstList (d : Yaml) (catchTypeErr : Bool) :
    List (List String) → Except PyErr (List String)
  | [] => .ok []
  | c :: cs =>
    match chainIndex d c with
    | .ok (.list xs) => .ok xs
    | .ok _ => firstList d catchTypeErr cs
    | .error .keyError => firstList d catchTypeErr cs
    | .error .typeError =>
      if catchTypeErr then firstList d catchTypeErr cs
      else .error .typeError
    | .error e => .error e

/-- Modelled from the words of claim C3 (for comparison with the source
function `rosdep_lookup`): return the first NON-empty list found by
trying, when a package manager is requested, the manager-qualified
exact-version level then the manager-qualified wildcard level, and
otherwise the exact-version level, the wildcard level, then the
version-agnostic level; malformed shapes never raise and are skipped. -/
def lookup_per_claim_C3 (d : Yaml) (key os : String)
    (os_version pkg_manager : Option String) : List String :=
  let lvls : List (List String) :=
    match pkg_manager with
    | some pm =>
      (match os_version with
       | some v => [[key, os, v, pm, "packages"]]
       | none => []) ++ [[key, os, "*", pm, "packages"]]
    | none =>
      (match os_version with
       | some v => [[key, os, v]]
       | none => []) ++ [[key, os, "*"], [key, os]]
  firstNonemptyList d lvls
where
  firstNonemptyList (d : Yaml) : List (List String) → List String
    | [] => []
    | c :: cs =>
      match chainIndex d c with
      | .ok (.list (x :: xs)) => x :: xs
      | _ => firstNonemptyList d cs

/-- Python `dict` assignment `d[k] = v` on an insertion-ordered
association list: an existing key keeps its position and gets the new
value; a new key is appended. -/
def dictSet {α : Type _} (d : List (String × α)) (k : String) (v : α) :
    List (String × α) :=
  match d with
  | [] => [(k, v)]
  | (k', v') :: rest =>
    if k' = k then (k, v) :: rest else (k', v') :: dictSet rest k v

/-- The state `get_cached`/`store_cache` act on: the `cache/` directory as
a map from logical name to (mtime, payload), where a `none` payload is a
file whose contents `pickle.load` rejects, plus whether the directory is
writable. -/
structure CacheState (α : Type) where
  entries : List (String × (Nat × Option α))
  writable : Bool

/-- `get_cached(name)`: stat the file (`FileNotFoundError` → `None`),
treat an mtime older than `3600 * 24` seconds as a cache miss, unpickle
(`pickle.PickleError` → `None`). -/
def get_cached {α : Type} (fs : CacheState α) (now : Nat) (name : String) :
    Option α :=
  match fs.entries.lookup name with
  | none => none
  | some (mtime, payload) =>
    if now - mtime > 3600 * 24 then
      none
    else
      match payload with
      | some obj => some obj
      | none => none

/-- `store_cache(name, obj)`: opens `cache/<name>.pickle` for writing
(truncating any previous contents) and dumps the object.  The source has
no exception handler, so an unwritable cache location raises `OSError`
to the caller. -/
def store_cache {α : Type} (fs : CacheState α) (now : Nat) (name : String)
    (obj : α) : Except PyErr (CacheState α) :=
  if fs.writable then
    .ok { fs with entries := dictSet fs.entries name (now, some obj) }
  else
    .error .osError

/-- One record of a repology `project-by` JSON response, with the fields
the script reads (`repo`, `subrepo`, `binname`). -/
structure RepologyRecord where
  repo : String
  subrepo : String
  binname : String
deriving DecidableEq, Repr

/-- The network as `check_repology` sees it: a query for
(repology platform identifier, foreign package name) either yields the
parsed JSON record list, or fails with `urlError`
(`urllib.error.URLError`, which the source catches) or `parseError`
(`json.JSONDecodeError` from `json.loads`, which the source does NOT
catch — its second handler names `yaml.YAMLError`, an unrelated class). -/
def RepologyNet : Type := String → String → Except PyErr (List RepologyRecord)

/-- `startswith` on Python strings: the pattern's characters are a prefix
of the subject's characters. -/
def strStartsWith (s pat : String) : Bool :=
  pat.data.isPrefixOf s.data

/-- `endswith` on Python strings: the pattern's characters are a suffix
of the subject's characters. -/
def strEndsWith (s pat : String) : Bool :=
  pat.data.isSuffixOf s.data

/-- The `os_lut` table of `check_repology`, mapping rosdep os names and
version codenames to repology platform identifiers. -/
def os_lut : List (String × List (String × String)) :=
  [("debian",
    [("*", "debian_stable"),
     ("stretch", "debian_oldstable"),
     ("buster", "debian_stable")]),
   ("ubuntu",
    [("*", "ubuntu_20_04"),
     ("bionic", "ubuntu_18_04"),
     ("focal", "ubuntu_20_04"),
     ("trusty", "ubuntu_14_04"),
     ("xenial", "ubuntu_16_04")])]

/-- `filter_hits` inside `check_repology`: drop names with a
documentation/demo/VCS suffix, and when the key denotes one Python
variant drop hits denoting the other variant. -/
def filter_hits (key : String) (hits : List String) : List String :=
  let noSuffix := hits.filter fun h =>
    !(strEndsWith h "-doc") && !(strEndsWith h "-docs") &&
    !(strEndsWith h "-demos") && !(strEndsWith h "-git") &&
    !(strEndsWith h "-svn") && !(strEndsWith h "-hg")
  if strStartsWith key "python-" then
    noSuffix.filter fun h => !(strStartsWith h "python-")
  else if strStartsWith key "python3-" then
    noSuffix.filter fun h => !(strStartsWith h "python2-")
  else
    noSuffix

/-- The `foreign_hits` dict built at the top of `check_repology`: for each
os of the key's rosdep mapping that `os_lut` knows, either each known
os-version whose value is a list contributes under its repology
identifier, or (`elif rosdep_mappings[os] is not None`) a non-dict value
contributes under the `'*'` identifier — a string value is iterated
character by character, a list value element by element.  Iterating a
non-dict mapping at the top level follows Python `for os in …`: `None`
raises `TypeError`, a string iterates its characters (single characters
never match the two os names), a list iterates its elements, where a
matching element would then be used to subscript the list itself,
raising `TypeError`. -/
def foreignHits (rosdep_mappings : Yaml) :
    Except PyErr (List (String × List String)) :=
  match rosdep_mappings with
  | .null => .error .typeError
  | .str _ => .ok []
  | .list xs =>
    if xs.any (fun x => (os_lut.lookup x).isSome) then .error .typeError
    else .ok []
  | .map prs =>
    .ok <| prs.foldl
      (fun fh osval =>
        match os_lut.lookup osval.1 with
        | none => fh
        | some lut =>
          match osval.2 with
          | .map verPrs =>
            verPrs.foldl
              (fun fh2 vh =>
                match lut.lookup vh.1 with
                | none => fh2
                | some repId =>
                  match vh.2 with
                  | .list l => dictSet fh2 repId l
                  | _ => fh2)
              fh
          | .null => fh
          | .str s =>
            dictSet fh ((lut.lookup "*").getD "")
              (s.data.map fun c => String.mk [c])
          | .list l => dictSet fh ((lut.lookup "*").getD "") l)
      []

/-- `set(...)` materialized deterministically: drop repeated elements,
keeping the first occurrence. -/
def dedupFirst (l : List String) : List String :=
  l.foldl (fun acc x => if acc.contains x then acc else acc ++ [x]) []

/-- The inner `for pkgname in foreign_hits[os]` loop of `check_repology`,
accumulating `repo_hits` and `aur_hits`.  The `try` block's
`except urllib.error.URLError: continue` skips the pair on a network
failure; the second handler, `except yaml.YAMLError`, does not match the
`json.JSONDecodeError` a malformed response raises from `json.loads`, so
a parse failure propagates out of the loop. -/
def crFetch (net : RepologyNet) (os : String) :
    List String → List RepologyRecord × List String →
    Except PyErr (List RepologyRecord × List String)
  | [], acc => .ok acc
  | pkgname :: rest, (repoHits, aurHits) =>
    match net os pkgname with
    | .error .urlError => crFetch net os rest (repoHits, aurHits)
    | .error e => .error e
    | .ok data =>
      crFetch net os rest
        (repoHits ++ data.filter (fun d => d.repo == "arch"),
         aurHits ++ (data.filter (fun d => d.repo == "aur")).map (·.binname))

/-- The outer `for os in foreign_hits` loop of `check_repology`: after
fetching all records for one foreign platform, return the first
non-empty subrepo tier (`core`, then `extra`, then `community`, then the
AUR hits), noise-filtered; otherwise continue with the next platform. -/
def crLoop (net : RepologyNet) (key : String) :
    List (String × List String) → Except PyErr (List String)
  | [] => .ok []
  | (os, names) :: rest =>
    match crFetch net os names ([], []) with
    | .error e => .error e
    | .ok (repoHits, aurHits) =>
      let coreHits :=
        dedupFirst ((repoHits.filter (fun h => h.subrepo == "core")).map (·.binname))
      if coreHits.length > 0 then .ok (filter_hits key coreHits)
      else
        let extraHits :=
          dedupFirst ((repoHits.filter (fun h => h.subrepo == "extra")).map (·.binname))
        if extraHits.length > 0 then .ok (filter_hits key extraHits)
        else
          let communityHits :=
            dedupFirst
              ((repoHits.filter (fun h => h.subrepo == "community")).map (·.binname))
          if communityHits.length > 0 then .ok (filter_hits key communityHits)
          else if aurHits.length > 0 then .ok (filter_hits key (dedupFirst aurHits))
          else crLoop net key rest

/-- `check_repology(key, rosdep_mappings)`: build `foreign_hits`, then
query repology per (platform, name) pair and return the first non-empty
filtered tier, or `[]`. -/
def check_repology (net : RepologyNet) (key : String)
    (rosdep_mappings : Yaml) : Except PyErr (List String) :=
  match foreignHits rosdep_mappings with
  | .error e => .error e
  | .ok fh => crLoop net key fh

/-- The read-only data `main` assembles before its resolution loop: the
adapter-produced name sets, the file manifests, the previously generated
output file, and the network as `check_repology` queries it. -/
structure Env where
  official_packages : List String
  aur_packages : List String
  pip_packages : List String
  ubuntu_files : List (String × List String)
  arch_files : List (String × List String)
  previous_defs : Yaml
  net : RepologyNet

/-- `do_all_pkgs_exist(pkgs)`: every name is in
`official_packages | aur_packages`. -/
def do_all_pkgs_exist (env : Env) (pkgs : List String) : Bool :=
  pkgs.all fun p =>
    env.official_packages.contains p || env.aur_packages.contains p

/-- `do_all_pip_pkgs_exist(pkgs)`: every name is in `pip_packages`. -/
def do_all_pip_pkgs_exist (env : Env) (pkgs : List String) : Bool :=
  pkgs.all fun p => env.pip_packages.contains p

/-- The dual-variant prefix transform of the guess stage:
`key.replace('python', 'python2', 1)` under a `startswith('python-')`
guard rewrites the prefix (the guard puts the first occurrence of
`python` at position 0, so replacing it keeps the first 6 characters'
worth dropped), `key.replace('python3', 'python', 1)` under a
`startswith('python3-')` guard likewise, any other key is unchanged. -/
def pyGuess (key : String) : String :=
  if strStartsWith key "python-" then "python2" ++ key.drop 6
  else if strStartsWith key "python3-" then "python" ++ key.drop 7
  else key

/-- Lexicographic code-point comparison of character lists — the order
Python uses to compare strings. -/
def charListLe : List Char → List Char → Bool
  | [], _ => true
  | _ :: _, [] => false
  | a :: as, b :: bs =>
    if a < b then true
    else if b < a then false
    else charListLe as bs

/-- Python's `<=` on strings: lexicographic by code point. -/
def pyStrLe (a b : String) : Bool :=
  charListLe a.data b.data

/-- Insert a string into a (sorted) list ahead of the first
greater-or-equal element. -/
def insertSorted (x : String) : List String → List String
  | [] => [x]
  | y :: ys => if pyStrLe x y then x :: y :: ys else y :: insertSorted x ys

/-- `sorted(...)` on a list of package names: ascending lexicographic
(code point) order, here as a structurally recursive insertion sort —
extensionally the list Python's `sorted` returns, since equal string
keys are identical values. -/
def sortPkgs (l : List String) : List String :=
  l.foldr insertSorted []

/-- One value of the output mapping `new_keys[key]`: either
`{'arch': sorted(pkgs)}` or `{'arch': {pkg_manager: {'packages':
sorted(pkgs)}}}`. -/
inductive Entry where
  | native (pkgs : List String)
  | byManager (manager : String) (pkgs : List String)
deriving DecidableEq, Repr

/-- `add_definition(key, pkgs, pkg_manager)` builds the output entry for
a key, sorting the package list. -/
def add_definition (pkgs : List String) (pkg_manager : Option String) :
    Entry :=
  match pkg_manager with
  | none => .native (sortPkgs pkgs)
  | some m => .byManager m (sortPkgs pkgs)

/-- The package lists held by an output entry. -/
def entryPkgs : Entry → List String
  | .native pkgs => pkgs
  | .byManager _ pkgs => pkgs

/-- `match_pkg_files(ubuntu_pkg_name)`: the files of the Ubuntu package
(missing name → `[]`), each file's owning Arch packages accumulated into
the `hits` count dict; the result is `list(hits.keys())`. -/
def match_pkg_files (env : Env) (ubuntu_pkg_name : String) : List String :=
  match env.ubuntu_files.lookup ubuntu_pkg_name with
  | none => []
  | some needed_files =>
    let hits := needed_files.foldl
      (fun hits file =>
        match env.arch_files.lookup file with
        | none => hits
        | some arch_pkgs =>
          arch_pkgs.foldl
            (fun h arch_pkg =>
              match h.lookup arch_pkg with
              | some n => dictSet h arch_pkg (n + 1)
              | none => dictSet h arch_pkg 1)
            hits)
      ([] : List (String × Nat))
    hits.map (·.1)

/-- Which statistics counter a key's classification increments. -/
inductive StatKey where
  | official
  | aur
  | pip
  | files
  | repology
  | skipped
  | na
deriving DecidableEq, Repr

/-- The `stats` dict of `main`. -/
structure Stats where
  official : Nat
  aur : Nat
  pip : Nat
  files : Nat
  repology : Nat
  skipped : Nat
  na : Nat
deriving DecidableEq, Repr

/-- All counters start at zero. -/
def stats0 : Stats := ⟨0, 0, 0, 0, 0, 0, 0⟩

/-- `stats[k] += 1`. -/
def bumpStat (s : Stats) : StatKey → Stats
  | .official => { s with official := s.official + 1 }
  | .aur => { s with aur := s.aur + 1 }
  | .pip => { s with pip := s.pip + 1 }
  | .files => { s with files := s.files + 1 }
  | .repology => { s with repology := s.repology + 1 }
  | .skipped => { s with skipped := s.skipped + 1 }
  | .na => { s with na := s.na + 1 }

/-- The sum of all seven counters. -/
def statsTotal (s : Stats) : Nat :=
  s.official + s.aur + s.pip + s.files + s.repology + s.skipped + s.na

/-- The `arch_pkgs` set of the file cross-reference stage: the union
(`set.update`, deduplicated) of `match_pkg_files(p)` over the bionic
package names. -/
def archPkgsOf (env : Env) (bionic_pkgs : List String) : List String :=
  bionic_pkgs.foldl
    (fun acc p =>
      (match_pkg_files env p).foldl
        (fun a x => if a.contains x then a else a ++ [x]) acc)
    []

/-- The repology stage followed by the unresolved fallback:
`check_repology(key, official_rosdep_defs[key])`; a non-empty result is
adopted, otherwise the key gets the empty entry and the `n/a` counter. -/
def processKeyRepology (env : Env) (F : Yaml) (key : String) :
    Except PyErr (StatKey × Option Entry) :=
  match pyIndex F key with
  | .error e => .error e
  | .ok mappings =>
    match check_repology env.net key mappings with
    | .error e => .error e
    | .ok repology_pkgs =>
      if repology_pkgs.length > 0 then
        .ok (.repology, some (add_definition repology_pkgs none))
      else
        .ok (.na, some (add_definition [] none))

/-- Stages 5 and onward of the per-key chain: the prefix-transformed
name guess against the official then AUR sets, the `-pip` suffix guess
against PyPI, the Ubuntu bionic file cross-reference, the repology
search, and the unresolved fallback.  The source's separate
`if key.endswith("-pip")` block falls through to the file stage when the
stripped name is not on PyPI, which the combined condition reproduces;
and it computes `arch_pkgs` only when `bionic_pkgs` is non-empty, which
agrees with computing it always since `archPkgsOf` of the empty list is
empty. -/
def processKeyGuess (env : Env) (F : Yaml) (key : String) :
    Except PyErr (StatKey × Option Entry) :=
  if pyGuess key ∈ env.official_packages then
    .ok (.official, some (add_definition [pyGuess key] none))
  else if pyGuess key ∈ env.aur_packages then
    .ok (.aur, some (add_definition [pyGuess key] none))
  else if strEndsWith key "-pip" ∧ key.dropRight 4 ∈ env.pip_packages then
    .ok (.pip, some (add_definition [key.dropRight 4] (some "pip")))
  else
    match rosdep_lookup F key "ubuntu" (some "bionic") none with
    | .error e => .error e
    | .ok bionic_pkgs =>
      if bionic_pkgs.length > 0 ∧ (archPkgsOf env bionic_pkgs).length > 0 then
        .ok (.files, some (add_definition (archPkgsOf env bionic_pkgs) none))
      else
        processKeyRepology env F key

/-- The body of `main`'s `for key in official_rosdep_defs` loop for one
key of the upstream file `F`: the ordered fallback chain, ending at the
first stage that succeeds.  The result is the counter the stage bumps
together with the output entry the stage stores (stages that only skip
store none); an uncaught Python exception is an `.error`. -/
def processKey (env : Env) (F : Yaml) (key : String) :
    Except PyErr (StatKey × Option Entry) :=
  match rosdep_lookup env.previous_defs key "arch" none none with
  | .error e => .error e
  | .ok current_hits =>
    if current_hits.length > 0 ∧ do_all_pkgs_exist env current_hits then
      .ok (.skipped, some (add_definition current_hits none))
    else
      match rosdep_lookup env.previous_defs key "arch" none (some "pip") with
      | .error e => .error e
      | .ok current_pip_hits =>
        if current_pip_hits.length > 0 ∧
            do_all_pip_pkgs_exist env current_pip_hits then
          .ok (.skipped, some (add_definition current_pip_hits (some "pip")))
        else
          match rosdep_lookup F key "arch" none none with
          | .error e => .error e
          | .ok official_hits =>
            if official_hits.length > 0 ∧
                do_all_pkgs_exist env official_hits then
              .ok (.skipped, none)
            else
              match rosdep_lookup F key "arch" none (some "pip") with
              | .error e => .error e
              | .ok official_pip_hits =>
                if official_pip_hits.length > 0 ∧
                    do_all_pip_pkgs_exist env official_pip_hits then
                  .ok (.skipped, none)
                else
                  processKeyGuess env F key

/-- The keys Python's `for key in official_rosdep_defs` iterates: a
dict's keys in insertion order, a list's elements, a string's
characters. -/
def yamlKeys : Yaml → List String
  | .map prs => prs.map (·.1)
  | .list xs => xs
  | .str s => s.data.map fun c => String.mk [c]
  | .null => []

/-- The resolution loop over the listed keys of one upstream file,
threading the statistics and the `new_keys` output dict. -/
def runKeys (env : Env) (F : Yaml) :
    List String → Stats → List (String × Entry) →
    Except PyErr (Stats × List (String × Entry))
  | [], s, nk => .ok (s, nk)
  | k :: ks, s, nk =>
    match processKey env F k with
    | .error e => .error e
    | .ok (sk, oe) =>
      runKeys env F ks (bumpStat s sk)
        (match oe with
         | none => nk
         | some e => dictSet nk k e)

/-- One iteration of `for filename in ["base.yaml", "python.yaml"]`:
iterate the freshly loaded upstream declarations.  Iterating `None`
(the result of parsing an explicit YAML `null`) raises `TypeError`. -/
def runFile (env : Env) (F : Yaml) (s : Stats)
    (nk : List (String × Entry)) :
    Except PyErr (Stats × List (String × Entry)) :=
  match F with
  | .null => .error .typeError
  | _ => runKeys env F (yamlKeys F) s nk

/-- The whole resolution loop of `main`: the two upstream files
processed in order against fresh statistics and an empty output dict. -/
def runAll (env : Env) (F1 F2 : Yaml) :
    Except PyErr (Stats × List (String × Entry)) :=
  match runFile env F1 stats0 [] with
  | .error e => .error e
  | .ok (s1, nk1) => runFile env F2 s1 nk1

/-- A concrete environment exercising the name-guess stage: the official
set holds `python2-yaml` and nothing else resolves. -/
def envC1 : Env :=
  { official_packages := ["python2-yaml"]
    aur_packages := []
    pip_packages := []
    ubuntu_files := []
    arch_files := []
    previous_defs := .map []
    net := fun _ _ => .ok [] }

/-- A concrete environment whose previous output stores the key `k` with
the unsorted native list `["b", "a"]`, both names official. -/
def envC2 : Env :=
  { official_packages := ["a", "b"]
    aur_packages := []
    pip_packages := []
    ubuntu_files := []
    arch_files := []
    previous_defs := .map [("k", .map [("arch", .list ["b", "a"])])]
    net := fun _ _ => .ok [] }

/-- A concrete environment where the key `k` itself is an official
package, so the name-guess stage accepts it. -/
def envC5 : Env :=
  { official_packages := ["k"]
    aur_packages := []
    pip_packages := []
    ubuntu_files := []
    arch_files := []
    previous_defs := .map []
    net := fun _ _ => .ok [] }

/-- A network where the query for `liberr` fails with a (caught)
`urllib.error.URLError` and every other query parses to one Arch core
record. -/
def netUrlFail : RepologyNet := fun _ name =>
  if name = "liberr" then .error .urlError
  else .ok [⟨"arch", "core", "foo"⟩]

/-- A network where the response for `liberr` is malformed, so
`json.loads` raises a `json.JSONDecodeError` — which the source's
`except yaml.YAMLError` handler does not catch. -/
def netParseFail : RepologyNet := fun _ name =>
  if name = "liberr" then .error .parseError
  else .ok [⟨"arch", "core", "foo"⟩]

/-- A rosdep mapping declaring two Ubuntu bionic package names, the
first of which triggers the failing query. -/
def mappingsC7 : Yaml :=
  .map [("ubuntu", .map [("bionic", .list ["liberr", "libok"])])]

/-- Helper lemmas about the embedding. -/

theorem lookup_dictSet_self {α : Type _} (d : List (String × α)) (k : String)
    (v : α) : (dictSet d k v).lookup k = some v := by
  induction d with
  | nil => simp [dictSet, List.lookup]
  | cons hd tl ih =>
    obtain ⟨k', v'⟩ := hd
    by_cases h : k' = k
    · simp [dictSet, h, List.lookup]
    · simp only [dictSet, if_neg h, List.lookup]
      rw [show (k == k') = false from beq_eq_false_iff_ne.mpr (Ne.symm h)]
      exact ih

theorem chainIndex_error_cases (ks : List String) :
    ∀ (d : Yaml) (e : PyErr), chainIndex d ks = .error e →
      e = .keyError ∨ e = .typeError := by
  induction ks with
  | nil => intro d e h; simp [chainIndex] at h
  | cons k ks ih =>
    intro d e h
    simp only [chainIndex] at h
    cases hpi : pyIndex d k with
    | ok w => rw [hpi] at h; exact ih w e h
    | error e' =>
      rw [hpi] at h
      cases h
      unfold pyIndex at hpi
      cases d <;> simp at hpi <;> try exact Or.inr hpi.symm
      · rcases hlk : List.lookup k _ with _ | w <;> rw [hlk] at hpi <;>
          simp at hpi
        exact Or.inl hpi.symm

theorem tryChain_true_ok (d : Yaml) (ks : List String)
    (rest : Except PyErr (List String)) (h : ∃ xs, rest = .ok xs) :
    ∃ xs, tryChain d ks true rest = .ok xs := by
  unfold tryChain
  cases hc : chainIndex d ks with
  | ok w => cases w <;> simp_all
  | error e =>
    rcases chainIndex_error_cases ks d e hc with rfl | rfl <;> simp_all

theorem tryChain_false_cases (d : Yaml) (ks : List String)
    (rest : Except PyErr (List String))
    (h : (∃ xs, rest = .ok xs) ∨ rest = .error .typeError) :
    (∃ xs, tryChain d ks false rest = .ok xs) ∨
      tryChain d ks false rest = .error .typeError := by
  unfold tryChain
  cases hc : chainIndex d ks with
  | ok w => cases w <;> simp_all
  | error e =>
    rcases chainIndex_error_cases ks d e hc with rfl | rfl <;> simp_all

theorem firstList_cons (d : Yaml) (ct : Bool) (c : List String)
    (cs : List (List String)) :
    firstList d ct (c :: cs) = tryChain d c ct (firstList d ct cs) := by
  cases hc : chainIndex d c with
  | ok w => cases w <;> simp [firstList, tryChain, hc]
  | error e => cases e <;> simp [firstList, tryChain, hc]

/-- C3 counterexample.  First input: under key `k`, os `arch`, the exact
version `bionic` stores the EMPTY list and the wildcard level stores
`["foo"]`; the claim's first-non-empty procedure would return `["foo"]`,
but `rosdep_lookup` returns the empty list found at the earlier level,
never reaching the wildcard level.  Second input: a package-manager
lookup where only the version-agnostic manager-qualified level
(`yaml_data[key][os][pm]['packages']`) is populated; the claim's
two-level manager chain misses it and yields `[]`, but `rosdep_lookup`
returns `["a"]` from that level, which the claim does not list. -/
theorem C3_counterexample :
    rosdep_lookup
        (.map [("k", .map [("arch",
          .map [("bionic", .list []), ("*", .list ["foo"])])])])
        "k" "arch" (some "bionic") none = .ok [] ∧
      lookup_per_claim_C3
        (.map [("k", .map [("arch",
          .map [("bionic", .list []), ("*", .list ["foo"])])])])
        "k" "arch" (some "bionic") none = ["foo"] ∧
      (Except.ok ([] : List String) : Except PyErr (List String)) ≠
        .ok ["foo"] ∧
      rosdep_lookup
        (.map [("k", .map [("arch",
          .map [("pip", .map [("packages", .list ["a"])])])])])
        "k" "arch" (some "bionic") (some "pip") = .ok ["a"] ∧
      lookup_per_claim_C3
        (.map [("k", .map [("arch",
          .map [("pip", .map [("packages", .list ["a"])])])])])
        "k" "arch" (some "bionic") (some "pip") = [] := by
  refine ⟨rfl, rfl, ?_, rfl, rfl⟩
  intro h
  simp at h

/-- C3 (amended): `rosdep_lookup` returns the first value OF LIST TYPE —
an empty list included, which then stops the search — found along the
subscript chains tried in this order: with a package manager requested,
the manager-qualified version-agnostic chain, then the manager-qualified
exact-version chain, then the manager-qualified wildcard chain (all
absorbing `KeyError` and `TypeError`); without one, the version-agnostic
chain, then the exact-version chain, then the wildcard chain (absorbing
only `KeyError`); `[]` results when every chain was skipped. -/
theorem C3_amended (d : Yaml) (key os : String)
    (os_version pkg_manager : Option String) :
    rosdep_lookup d key os os_version pkg_manager =
      firstList d pkg_manager.isSome (levels key os os_version pkg_manager) := by
  have hnil : ∀ ct, firstList d ct [] = .ok [] := fun _ => rfl
  cases pkg_manager <;> cases os_version <;>
    simp only [rosdep_lookup, levels, Option.isSome, List.singleton_append,
      List.nil_append, List.cons_append, firstList_cons, hnil]

/-- C4 counterexample: with no package manager requested and a scalar
string stored where a mapping is expected (`{'k': 'foo'}`), the lookup
raises an uncaught `TypeError` (`'foo'['arch']`) instead of returning
the empty list — the no-manager branch catches only `KeyError`. -/
theorem C4_counterexample :
    rosdep_lookup (.map [("k", .str "foo")]) "k" "arch" none none =
      .error .typeError := rfl

/-- C6 counterexample: applying the transform twice to `python-yaml`
yields `python2-yaml`, not the original key back, and twice to
`python3-yaml` also yields `python2-yaml` — the transform is not
self-inverse on either documented prefix. -/
theorem C6_counterexample :
    pyGuess (pyGuess "python-yaml") = "python2-yaml" ∧
      "python2-yaml" ≠ "python-yaml" ∧
      pyGuess (pyGuess "python3-yaml") = "python2-yaml" ∧
      "python2-yaml" ≠ "python3-yaml" := by
  refine ⟨by decide, by decide, by decide, by decide⟩

/-- C6 (amended): the transform is NOT self-inverse on the documented
prefixes.  Applying it twice to any `python-`-prefixed key and to any
`python3-`-prefixed key yields the `python2-`-prefixed variant in both
cases (`python-` maps to `python2-`, a fixed point, and `python3-` maps
to `python-` and then to `python2-`), which differs from either original
key. -/
theorem C6_amended (s : String) :
    pyGuess (pyGuess ("python-" ++ s)) = "python2-" ++ s ∧
      pyGuess (pyGuess ("python3-" ++ s)) = "python2-" ++ s ∧
      "python2-" ++ s ≠ "python-" ++ s ∧
      "python2-" ++ s ≠ "python3-" ++ s := by
  have hd1 : ("python-" ++ s).data =
      'p' :: 'y' :: 't' :: 'h' :: 'o' :: 'n' :: '-' ::s.data := by
    rw [String.data_append]
    rfl
  have hd2 : ("python2-" ++ s).data =
      'p' :: 'y' :: 't' :: 'h' :: 'o' :: 'n' :: '2' :: '-' ::s.data := by
    rw [String.data_append]
    rfl
  have hd3 : ("python3-" ++ s).data =
      'p' :: 'y' :: 't' :: 'h' :: 'o' :: 'n' :: '3' :: '-' ::s.data := by
    rw [String.data_append]
    rfl
  have c1 : strStartsWith ("python-" ++ s) "python-" = true := by
    simp [strStartsWith, hd1, List.isPrefixOf]
  have step1 : pyGuess ("python-" ++ s) = "python2-" ++ s := by
    simp only [pyGuess, c1, if_true]
    apply String.ext
    rw [String.data_append, String.data_drop, hd1, hd2]
    rfl
  have c2 : strStartsWith ("python2-" ++ s) "python-" = false := by
    simp [strStartsWith, hd2, List.isPrefixOf]
  have c3 : strStartsWith ("python2-" ++ s) "python3-" = false := by
    simp [strStartsWith, hd2, List.isPrefixOf]
  have fix2 : pyGuess ("python2-" ++ s) = "python2-" ++ s := by
    simp [pyGuess, c2, c3]
  have c4 : strStartsWith ("python3-" ++ s) "python-" = false := by
    simp [strStartsWith, hd3, List.isPrefixOf]
  have c5 : strStartsWith ("python3-" ++ s) "python3-" = true := by
    simp [strStartsWith, hd3, List.isPrefixOf]
  have step2 : pyGuess ("python3-" ++ s) = "python-" ++ s := by
    simp only [pyGuess, c4, c5, if_true, Bool.false_eq_true, if_false]
    apply String.ext
    rw [String.data_append, String.data_drop, hd1, hd3]
    rfl
  refine ⟨?_, ?_, ?_, ?_⟩
  · rw [step1, fix2]
  · rw [step2, step1]
  · intro h
    have hlen := congrArg String.length h
    rw [String.length_append, String.length_append,
      show "python2-".length = 8 from rfl,
      show "python-".length = 7 from rfl] at hlen
    omega
  · intro h
    have hdata := congrArg String.data h
    rw [hd2, hd3] at hdata
    simp at hdata

/-- C8: a cache `get` after a `put` of a payload returns exactly that
payload while the age is within the 24-hour window, returns absent once
the age exceeds the window even though the entry is still stored and
readable, and returns absent — indistinguishably — when the entry does
not exist or its payload is unreadable. -/
theorem C8_cache_contract {α : Type} (fs fs' : CacheState α)
    (now1 now2 : Nat) (name : String) (obj : α)
    (hput : store_cache fs now1 name obj = .ok fs') :
    (now2 - now1 ≤ 3600 * 24 → get_cached fs' now2 name = some obj) ∧
      (now2 - now1 > 3600 * 24 → get_cached fs' now2 name = none) ∧
      (∀ (fs2 : CacheState α) (n2 : Nat) (nm : String),
        fs2.entries.lookup nm = none → get_cached fs2 n2 nm = none) ∧
      (∀ (fs2 : CacheState α) (n2 t : Nat) (nm : String),
        fs2.entries.lookup nm = some (t, none) →
          get_cached fs2 n2 nm = none) := by
  cases hw : fs.writable with
  | false => rw [store_cache, if_neg (by simp [hw])] at hput; cases hput
  | true =>
    rw [store_cache, if_pos hw] at hput
    simp only [Except.ok.injEq] at hput
    subst hput
    refine ⟨?_, ?_, ?_, ?_⟩
    · intro hle
      simp only [get_cached, lookup_dictSet_self]
      rw [if_neg (by omega)]
    · intro hgt
      simp only [get_cached, lookup_dictSet_self]
      rw [if_pos (by omega)]
    · intro fs2 n2 nm h
      simp [get_cached, h]
    · intro fs2 n2 t nm h
      simp only [get_cached, h]
      split <;> rfl

/-- Witness for C8: a put at time 0 is returned by a get at time 5 and
absent for a get at time 90000 (more than 24 hours later). -/
theorem C8_cache_contract_witness :
    get_cached (⟨[("arch_packages", (0, some 7))], true⟩ : CacheState Nat) 5
        "arch_packages" = some 7 ∧
      get_cached
        (⟨[("arch_packages", (0, some 7))], true⟩ : CacheState Nat) 90000
        "arch_packages" = none :=
  ⟨(C8_cache_contract (⟨[], true⟩ : CacheState Nat)
      ⟨[("arch_packages", (0, some 7))], true⟩ 0 5 "arch_packages" 7 rfl).1
    (by decide),
   (C8_cache_contract (⟨[], true⟩ : CacheState Nat)
      ⟨[("arch_packages", (0, some 7))], true⟩ 0 90000 "arch_packages" 7
      rfl).2.1 (by decide)⟩

/-- C9 counterexample: `store_cache` has no exception handler, so on an
unwritable cache location the put does not absorb the failure — it
raises `OSError` to its caller (which, in `main`'s adapters, aborts the
run). -/
theorem C9_counterexample :
    store_cache (⟨[], false⟩ : CacheState Nat) 0 "aur_packages" 1 =
      .error .osError := rfl

/-- C9 (amended): on a writable cache location a put stores the payload
(a subsequent get returns it); on an unwritable location the put raises
`OSError`, which propagates to the caller and aborts the run — only in
that sense does the next run re-fetch. -/
theorem C9_amended {α : Type} (fs : CacheState α) (now : Nat)
    (name : String) (obj : α) :
    (fs.writable = true →
      ∃ fs', store_cache fs now name obj = .ok fs' ∧
        get_cached fs' now name = some obj) ∧
      (fs.writable = false →
        store_cache fs now name obj = .error .osError) := by
  constructor
  · intro hw
    refine ⟨{ fs with entries := dictSet fs.entries name (now, some obj) },
      ?_, ?_⟩
    · simp [store_cache, hw]
    · simp [get_cached, lookup_dictSet_self, Nat.sub_self]
  · intro hw
    simp [store_cache, hw]

/-- Witness for C9 (amended): concrete writable and unwritable stores. -/
theorem C9_amended_witness :
    (∃ fs', store_cache (⟨[], true⟩ : CacheState Nat) 3 "pip_packages" 9 =
        .ok fs' ∧ get_cached fs' 3 "pip_packages" = some 9) ∧
      store_cache (⟨[], false⟩ : CacheState Nat) 3 "pip_packages" 9 =
        .error .osError :=
  ⟨(C9_amended (⟨[], true⟩ : CacheState Nat) 3 "pip_packages" 9).1 rfl,
   (C9_amended (⟨[], false⟩ : CacheState Nat) 3 "pip_packages" 9).2 rfl⟩

/-- C4 (amended): with a package manager requested the lookup never
raises — every malformed shape is absorbed and some list is returned;
without one, the lookup either returns a list or raises an uncaught
`TypeError` (it never leaks a `KeyError`), and a `TypeError` is indeed
possible (see the counterexample). -/
theorem C4_amended (d : Yaml) (key os : String) (os_version : Option String)
    (pm : String) :
    (∃ xs, rosdep_lookup d key os os_version (some pm) = .ok xs) ∧
      ((∃ xs, rosdep_lookup d key os os_version none = .ok xs) ∨
        rosdep_lookup d key os os_version none = .error .typeError) := by
  constructor
  · unfold rosdep_lookup
    cases os_version <;>
      · apply tryChain_true_ok
        apply tryChain_true_ok
        try exact ⟨[], rfl⟩
        try (apply tryChain_true_ok; exact ⟨[], rfl⟩)
  · unfold rosdep_lookup
    cases os_version <;>
      · apply tryChain_false_cases
        apply tryChain_false_cases
        try exact Or.inl ⟨[], rfl⟩
        try (apply tryChain_false_cases; exact Or.inl ⟨[], rfl⟩)




theorem sortPkgs_singleton (x : String) : sortPkgs [x] = [x] := rfl

theorem charListLe_iff (l1 : List Char) : ∀ (l2 : List Char),
    charListLe l1 l2 = true ↔ ¬ List.Lex (· < ·) l2 l1 := by
  induction l1 with
  | nil =>
    intro l2
    simp only [charListLe]
    constructor
    · intro _ h
      cases h
    · intro _
      trivial
  | cons a as ih =>
    intro l2
    cases l2 with
    | nil =>
      simp only [charListLe]
      constructor
      · intro h
        cases h
      · intro h
        exact absurd List.Lex.nil h
    | cons b bs =>
      simp only [charListLe]
      by_cases hab : a < b
      · rw [if_pos hab]
        constructor
        · intro _ h
          cases h with
          | rel hba => exact absurd hba (lt_asymm hab)
          | cons h2 => exact absurd hab (lt_irrefl _)
        · intro _
          rfl
      · rw [if_neg hab]
        by_cases hba : b < a
        · rw [if_pos hba]
          constructor
          · intro h
            cases h
          · intro h
            exact absurd (List.Lex.rel hba) h
        · rw [if_neg hba]
          have heq : a = b := le_antisymm (le_of_not_lt hba) (le_of_not_lt hab)
          subst heq
          rw [ih bs]
          constructor
          · intro h hlex
            cases hlex with
            | rel h2 => exact absurd h2 hba
            | cons h2 => exact h h2
          · intro h hlex
            exact h (List.Lex.cons hlex)

theorem pyStrLe_iff (a b : String) : pyStrLe a b = true ↔ a ≤ b := by
  rw [String.le_iff_toList_le, pyStrLe, charListLe_iff]
  show ¬ b.toList < a.toList ↔ a.toList ≤ b.toList
  exact not_lt

theorem mem_insertSorted (x y : String) (l : List String) :
    y ∈ insertSorted x l ↔ y = x ∨ y ∈ l := by
  induction l with
  | nil => simp [insertSorted]
  | cons z zs ih =>
    simp only [insertSorted]
    split
    · simp [List.mem_cons]
    · simp only [List.mem_cons, ih]
      tauto

theorem insertSorted_pairwise (x : String) (l : List String)
    (h : List.Pairwise (fun a b : String => a ≤ b) l) :
    List.Pairwise (fun a b : String => a ≤ b) (insertSorted x l) := by
  induction l with
  | nil => simp [insertSorted]
  | cons z zs ih =>
    rcases List.pairwise_cons.mp h with ⟨hz, hzs⟩
    simp only [insertSorted]
    split
    next hxz =>
      refine List.pairwise_cons.mpr ⟨?_, h⟩
      intro b hb
      have hxz2 : x ≤ z := (pyStrLe_iff x z).mp hxz
      rcases List.mem_cons.mp hb with rfl | hb2
      · exact hxz2
      · exact le_trans hxz2 (hz b hb2)
    next hxz =>
      refine List.pairwise_cons.mpr ⟨?_, ih hzs⟩
      intro b hb
      rcases (mem_insertSorted x b zs).mp hb with rfl | hb2
      · exact le_of_not_le fun hle =>
          hxz ((pyStrLe_iff b z).mpr hle)
      · exact hz b hb2

theorem sortPkgs_pairwise (l : List String) :
    List.Pairwise (fun a b : String => a ≤ b) (sortPkgs l) := by
  induction l with
  | nil => simp [sortPkgs]
  | cons x xs ih => exact insertSorted_pairwise x _ ih

theorem add_definition_pairwise (pkgs : List String) (pm : Option String) :
    List.Pairwise (fun a b : String => a ≤ b)
      (entryPkgs (add_definition pkgs pm)) := by
  cases pm <;> simp only [add_definition, entryPkgs] <;>
    exact sortPkgs_pairwise _

theorem bumpStat_total (s : Stats) (sk : StatKey) :
    statsTotal (bumpStat s sk) = statsTotal s + 1 := by
  cases sk <;> simp [bumpStat, statsTotal] <;> omega

theorem runKeys_total (env : Env) (F : Yaml) :
    ∀ (ks : List String) (s : Stats) (nk : List (String × Entry))
      (s' : Stats) (nk' : List (String × Entry)),
      runKeys env F ks s nk = .ok (s', nk') →
        statsTotal s' = statsTotal s + ks.length := by
  intro ks
  induction ks with
  | nil =>
    intro s nk s' nk' h
    simp only [runKeys, Except.ok.injEq, Prod.mk.injEq] at h
    obtain ⟨rfl, -⟩ := h
    simp
  | cons k ks ih =>
    intro s nk s' nk' h
    cases hp : processKey env F k with
    | error e =>
      simp only [runKeys, hp] at h
      exact Except.noConfusion h
    | ok p =>
      obtain ⟨sk, oe⟩ := p
      simp only [runKeys, hp] at h
      have := ih _ _ _ _ h
      rw [this, bumpStat_total]
      simp only [List.length_cons]
      omega

theorem runFile_total (env : Env) (F : Yaml) (s : Stats)
    (nk : List (String × Entry)) (s' : Stats)
    (nk' : List (String × Entry))
    (h : runFile env F s nk = .ok (s', nk')) :
    statsTotal s' = statsTotal s + (yamlKeys F).length := by
  unfold runFile at h
  cases F with
  | null => exact Except.noConfusion h
  | str s2 => exact runKeys_total env _ _ _ _ _ _ h
  | list xs => exact runKeys_total env _ _ _ _ _ _ h
  | map m => exact runKeys_total env _ _ _ _ _ _ h

/-- C1: when stages 1-4 all fail (empty or invalid previous native,
previous pip, upstream native, upstream pip lookups) and the
prefix-transformed key is in the official pacman set, the engine emits
exactly the one-element list holding the transformed name, classified
under the official (name-guess) counter, which the run bumps by one for
this key. -/
theorem C1_name_guess (env : Env) (F : Yaml) (key : String)
    (l1 l2 l3 l4 : List String)
    (h1 : rosdep_lookup env.previous_defs key "arch" none none = .ok l1)
    (h1b : l1 = [] ∨ do_all_pkgs_exist env l1 = false)
    (h2 : rosdep_lookup env.previous_defs key "arch" none (some "pip") =
      .ok l2)
    (h2b : l2 = [] ∨ do_all_pip_pkgs_exist env l2 = false)
    (h3 : rosdep_lookup F key "arch" none none = .ok l3)
    (h3b : l3 = [] ∨ do_all_pkgs_exist env l3 = false)
    (h4 : rosdep_lookup F key "arch" none (some "pip") = .ok l4)
    (h4b : l4 = [] ∨ do_all_pip_pkgs_exist env l4 = false)
    (hg : pyGuess key ∈ env.official_packages) :
    processKey env F key =
      .ok (.official, some (.native [pyGuess key])) := by
  have g1 : ¬(l1.length > 0 ∧ do_all_pkgs_exist env l1 = true) := by
    rcases h1b with rfl | hb
    · simp
    · simp [hb]
  have g2 : ¬(l2.length > 0 ∧ do_all_pip_pkgs_exist env l2 = true) := by
    rcases h2b with rfl | hb
    · simp
    · simp [hb]
  have g3 : ¬(l3.length > 0 ∧ do_all_pkgs_exist env l3 = true) := by
    rcases h3b with rfl | hb
    · simp
    · simp [hb]
  have g4 : ¬(l4.length > 0 ∧ do_all_pip_pkgs_exist env l4 = true) := by
    rcases h4b with rfl | hb
    · simp
    · simp [hb]
  simp only [processKey, h1, h2, h3, h4]
  rw [if_neg g1, if_neg g2, if_neg g3, if_neg g4]
  unfold processKeyGuess
  rw [if_pos hg]
  simp [add_definition, sortPkgs_singleton]

/-- Witness for C1: the key `python-yaml` with empty previous/upstream
mappings and `python2-yaml` official resolves to exactly
`["python2-yaml"]` under the official counter. -/
theorem C1_name_guess_witness :
    processKey envC1 (.map [("python-yaml", .map [])]) "python-yaml" =
      .ok (.official, some (.native ["python2-yaml"])) := by
  have h := C1_name_guess envC1 (.map [("python-yaml", .map [])])
    "python-yaml" [] [] [] [] rfl (Or.inl rfl) rfl (Or.inl rfl) rfl
    (Or.inl rfl) rfl (Or.inl rfl) (by decide)
  rw [show pyGuess "python-yaml" = "python2-yaml" from by decide] at h
  exact h

/-- C2 counterexample: the previous output stores `k: {arch: [b, a]}`,
every name exists, and the engine keeps the mapping's names but not
their order — the emitted entry is the sorted `["a", "b"]`, not the
verbatim `["b", "a"]`. -/
theorem C2_counterexample :
    processKey envC2 (.map []) "k" =
        .ok (.skipped, some (.native ["a", "b"])) ∧
      (["a", "b"] : List String) ≠ ["b", "a"] :=
  ⟨by decide, by decide⟩

/-- C2 (amended): when the previous native list for a key is non-empty
and every name is official or AUR, the engine keeps exactly those names
— but emits them SORTED ascending, not in the stored order — and
classifies the key under the kept-as-is (`skipped`) counter. -/
theorem C2_kept_as_is_sorted (env : Env) (F : Yaml) (key : String)
    (l : List String)
    (h : rosdep_lookup env.previous_defs key "arch" none none = .ok l)
    (hne : l ≠ []) (hex : do_all_pkgs_exist env l = true) :
    processKey env F key = .ok (.skipped, some (.native (sortPkgs l))) := by
  have hp : l.length > 0 ∧ do_all_pkgs_exist env l = true :=
    ⟨List.length_pos.mpr hne, hex⟩
  simp only [processKey, h]
  rw [if_pos hp]
  simp [add_definition]

/-- Witness for C2 (amended) at the concrete previous output
`k: {arch: [b, a]}`. -/
theorem C2_kept_as_is_sorted_witness :
    processKey envC2 (.map []) "k" =
      .ok (.skipped, some (.native (sortPkgs ["b", "a"]))) :=
  C2_kept_as_is_sorted envC2 (.map []) "k" ["b", "a"] rfl (by decide)
    (by decide)

theorem processKeyRepology_pairwise (env : Env) (F : Yaml) (key : String)
    (c : StatKey) (e : Entry)
    (h : processKeyRepology env F key = .ok (c, some e)) :
    List.Pairwise (fun a b : String => a ≤ b) (entryPkgs e) := by
  unfold processKeyRepology at h
  repeat' split at h
  all_goals
    first
      | exact Except.noConfusion h
      | (injection h with h1
         injection h1 with ha hb
         first
           | exact Option.noConfusion hb
           | (injection hb with hc
              subst hc
              exact add_definition_pairwise _ _))

theorem processKeyGuess_pairwise (env : Env) (F : Yaml) (key : String)
    (c : StatKey) (e : Entry)
    (h : processKeyGuess env F key = .ok (c, some e)) :
    List.Pairwise (fun a b : String => a ≤ b) (entryPkgs e) := by
  unfold processKeyGuess at h
  repeat' split at h
  all_goals
    first
      | exact Except.noConfusion h
      | exact processKeyRepology_pairwise env F key c e h
      | (injection h with h1
         injection h1 with ha hb
         first
           | exact Option.noConfusion hb
           | (injection hb with hc
              subst hc
              exact add_definition_pairwise _ _))

/-- C10: every output entry the per-key resolution produces — native
lists and manager-qualified `packages` lists alike — is sorted in
ascending string order, whatever order the candidates arrived from the
previous output file or the resolving stage. -/
theorem C10_output_sorted (env : Env) (F : Yaml) (key : String)
    (c : StatKey) (e : Entry)
    (h : processKey env F key = .ok (c, some e)) :
    List.Pairwise (fun a b : String => a ≤ b) (entryPkgs e) := by
  unfold processKey at h
  repeat' split at h
  all_goals
    first
      | exact Except.noConfusion h
      | exact processKeyGuess_pairwise env F key c e h
      | (injection h with h1
         injection h1 with ha hb
         first
           | exact Option.noConfusion hb
           | (injection hb with hc
              subst hc
              exact add_definition_pairwise _ _))

/-- Witness for C10: the concrete kept-as-is entry produced from the
unsorted previous list `["b", "a"]` is sorted. -/
theorem C10_output_sorted_witness :
    List.Pairwise (fun a b : String => a ≤ b)
      (entryPkgs (.native ["a", "b"])) :=
  C10_output_sorted envC2 (.map []) "k" .skipped (.native ["a", "b"])
    (by decide)

/-- C5 counterexample: the single distinct key `k` appears in both
upstream files, so one run classifies it twice — the official counter
ends at 2, not 1, and the key's output entry is written on both passes
(the second pass overwrites the first). -/
theorem C5_counterexample :
    runAll envC5 (.map [("k", .map [])]) (.map [("k", .map [])]) =
        .ok (⟨2, 0, 0, 0, 0, 0, 0⟩, [("k", Entry.native ["k"])]) ∧
      (2 : Nat) ≠ 1 :=
  ⟨by decide, by decide⟩

/-- C5 (amended): each key OCCURRENCE is classified exactly once — over
a completed run the seven counters sum to exactly the number of key
occurrences across the two upstream files, so a key present in both
files is classified once per file (and its entry rewritten by the later
pass), while within one pass the first satisfied stage short-circuits
the rest. -/
theorem C5_amended (env : Env) (F1 F2 : Yaml) (s : Stats)
    (nk : List (String × Entry))
    (h : runAll env F1 F2 = .ok (s, nk)) :
    statsTotal s = (yamlKeys F1).length + (yamlKeys F2).length := by
  unfold runAll at h
  cases h1 : runFile env F1 stats0 [] with
  | error e =>
    rw [h1] at h
    exact Except.noConfusion h
  | ok p =>
    obtain ⟨s1, nk1⟩ := p
    rw [h1] at h
    have t1 := runFile_total env F1 stats0 [] s1 nk1 h1
    have t2 := runFile_total env F2 s1 nk1 s nk h
    rw [t2, t1]
    simp [stats0, statsTotal]

/-- Witness for C5 (amended): on the two concrete single-key files the
counters sum to 2 = 1 + 1. -/
theorem C5_amended_witness :
    statsTotal ⟨2, 0, 0, 0, 0, 0, 0⟩ =
      (yamlKeys (.map [("k", .map [])])).length +
        (yamlKeys (.map [("k", .map [])])).length :=
  C5_amended envC5 (.map [("k", .map [])]) (.map [("k", .map [])])
    ⟨2, 0, 0, 0, 0, 0, 0⟩ [("k", Entry.native ["k"])] (by decide)

/-- C7 evaluation: over the same two bionic names, a network failure
(`URLError`) on the first pair is skipped and the loop continues to the
second pair, yielding `["foo"]`; but a parse failure of the first
pair's response propagates — the source's `except yaml.YAMLError` does
not catch the `json.JSONDecodeError` that `json.loads` raises — and
aborts the whole stage (and, uncaught in `main`, the run). -/
theorem C7_evaluation :
    check_repology netUrlFail "x" mappingsC7 = .ok ["foo"] ∧
      check_repology netParseFail "x" mappingsC7 = .error .parseError :=
  ⟨by decide, by decide⟩

/-- Witness for C3 (amended) at a concrete empty mapping. -/
theorem C3_amended_witness :
    rosdep_lookup (.map []) "k" "arch" none none =
      firstList (.map []) (Option.isSome (α := String) none)
        (levels "k" "arch" none none) :=
  C3_amended (.map []) "k" "arch" none none

/-- Witness for C4 (amended) at a concrete malformed mapping. -/
theorem C4_amended_witness :
    (∃ xs, rosdep_lookup (.map [("k", .str "foo")]) "k" "arch" none
      (some "pip") = .ok xs) :=
  (C4_amended (.map [("k", .str "foo")]) "k" "arch" none "pip").1

/-- Witness for C6 (amended) at the concrete suffix `yaml`. -/
theorem C6_amended_witness :
    pyGuess (pyGuess ("python-" ++ "yaml")) = "python2-" ++ "yaml" :=
  (C6_amended "yaml").1
